import Mathlib

/-!
Verification development for the SyferText tutorial repository.

The repository consists of a single tutorial notebook,
`tutorials/Part 0 - (Getting Started) Local Tokenization.ipynb`, whose code
cells only sequence calls into the external `syft` / `torch` / `syfertext`
libraries and whose recorded outputs document one concrete run.

We embed two layers:

1. the notebook program itself: a small Python-statement datatype and a literal
   transcription of the ten code cells, over which structural properties
   (no definitions, no error handling, sequential control flow, which
   attributes are read, which callees occur) are decidable;

2. the external interface exercised by the notebook (the `load` entry point,
   the callable `Language` object, the `Doc` with its tokens), modelled from
   the spec's description of that interface and from the outputs recorded in
   the notebook, since the `syfertext` package code itself is not part of the
   provided source.
-/

namespace SyferTextTutorial

/-! ## Layer 1: embedding of the notebook's code cells -/

/-- Python expressions as they occur in the notebook's code cells.
Call arities are specialized (the notebook only uses calls of one or two
arguments, possibly with one keyword argument) so that all recursions stay
structural. `binMod` is Python's `%` string-formatting operator. -/
inductive PyExpr where
  | name (x : String)
  | strLit (s : String)
  | call1 (callee : PyExpr) (a1 : PyExpr)
  | callKw1 (callee : PyExpr) (a1 : PyExpr) (kw : String) (kwval : PyExpr)
  | attrGet (obj : PyExpr) (field : String)
  | indexGet (obj : PyExpr) (i : Nat)
  | tuple2 (a b : PyExpr)
  | tuple3 (a b c : PyExpr)
  | tuple4 (a b c d : PyExpr)
  | binMod (a b : PyExpr)

/-- Python statements as they occur in the notebook's code cells.  The
constructors `funcDef`, `classDef`, `tryExcept` and `attrAssign` are part of
the statement language so that their absence from the transcribed program is a
falsifiable fact, not an artifact of the embedding. -/
inductive PyStmt where
  | importModule (modname : String)
  | importModuleAs (modname : String) (asName : String)
  | importFrom (modname : String) (ident : String)
  | assign (target : String) (rhs : PyExpr)
  | attrAssign (obj : String) (field : String) (rhs : PyExpr)
  | exprStmt (e : PyExpr)
  | forIn (v : String) (iterExpr : PyExpr) (body : PyStmt)
  | funcDef (fname : String) (body : PyStmt)
  | classDef (cname : String) (body : PyStmt)
  | tryExcept (body : PyStmt) (handler : PyStmt)

/-- The text tokenized in section 2 of the notebook (cell `my_str = ...`).
The opening brace of the original text is written with its escape. -/
def myStrText : String := "Dr. doom! is  (\x7btoken-izing a python! string"

/-- The text wrapped in a PySyft `String` in section 3 of the notebook. -/
def myStringText : String := "I am token#izing a PySyft String object"

/-- Literal transcription of the ten code cells of the notebook, in execution
order.  Each list element is one Python statement; compound cells contribute
several consecutive statements. -/
def notebookProgram : List PyStmt := [
  -- cell: import warnings / warnings.filterwarnings('ignore')
  .importModule "warnings",
  .exprStmt (.call1 (.attrGet (.name "warnings") "filterwarnings") (.strLit "ignore")),
  -- cell: import syft as sy / import torch / import syfertext
  .importModuleAs "syft" "sy",
  .importModule "torch",
  .importModule "syfertext",
  -- cell: hook = sy.TorchHook(torch)
  .assign "hook" (.call1 (.attrGet (.name "sy") "TorchHook") (.name "torch")),
  -- cell: me = hook.local_worker
  .assign "me" (.attrGet (.name "hook") "local_worker"),
  -- cell: nlp = syfertext.load('en_core_web_lg', owner = me) / (type(nlp), nlp.owner)
  .assign "nlp" (.callKw1 (.attrGet (.name "syfertext") "load")
    (.strLit "en_core_web_lg") "owner" (.name "me")),
  .exprStmt (.tuple2 (.call1 (.name "type") (.name "nlp")) (.attrGet (.name "nlp") "owner")),
  -- cell: my_str = '...' / doc = nlp(my_str) / (type(doc), doc.owner, len(doc))
  .assign "my_str" (.strLit myStrText),
  .assign "doc" (.call1 (.name "nlp") (.name "my_str")),
  .exprStmt (.tuple3 (.call1 (.name "type") (.name "doc"))
    (.attrGet (.name "doc") "owner") (.call1 (.name "len") (.name "doc"))),
  -- cell: for token in doc: print('%10s | %5s | %3s | %s' % (token, token.space_after, token.start_pos, token.stop_pos))
  .forIn "token" (.name "doc")
    (.exprStmt (.call1 (.name "print") (.binMod (.strLit "%10s | %5s | %3s | %s")
      (.tuple4 (.name "token") (.attrGet (.name "token") "space_after")
        (.attrGet (.name "token") "start_pos") (.attrGet (.name "token") "stop_pos"))))),
  -- cell: print(doc[2])
  .exprStmt (.call1 (.name "print") (.indexGet (.name "doc") 2)),
  -- cell: doc[2].vector
  .exprStmt (.attrGet (.indexGet (.name "doc") 2) "vector"),
  -- cell: from syft.generic.string import String
  .importFrom "syft.generic.string" "String",
  -- cell: my_string = String('...') / (type(my_string), my_string.owner)
  .assign "my_string" (.call1 (.name "String") (.strLit myStringText)),
  .exprStmt (.tuple2 (.call1 (.name "type") (.name "my_string"))
    (.attrGet (.name "my_string") "owner")),
  -- cell: doc = nlp(my_string) / for token in doc: print('%10s | %5s | %s' % (token, token.space_after, token.orth))
  .assign "doc" (.call1 (.name "nlp") (.name "my_string")),
  .forIn "token" (.name "doc")
    (.exprStmt (.call1 (.name "print") (.binMod (.strLit "%10s | %5s | %s")
      (.tuple3 (.name "token") (.attrGet (.name "token") "space_after")
        (.attrGet (.name "token") "orth")))))]

/-- Whether a statement (or any statement nested inside it) defines a
function or a class. -/
def stmtIsDefinition : PyStmt → Bool
  | .funcDef _ _ => true
  | .classDef _ _ => true
  | .forIn _ _ b => stmtIsDefinition b
  | .tryExcept b h => stmtIsDefinition b || stmtIsDefinition h
  | _ => false

/-- Whether a statement (or any statement nested inside it) is a
`try`/`except` block. -/
def stmtIsTry : PyStmt → Bool
  | .tryExcept _ _ => true
  | .forIn _ _ b => stmtIsTry b
  | .funcDef _ b => stmtIsTry b
  | .classDef _ b => stmtIsTry b
  | _ => false

/-- Printable label for the callee of a Python call.  In the notebook all
callees are plain names or one-level attribute accesses. -/
def calleeLabel : PyExpr → String
  | .name x => x
  | .attrGet (.name o) f => o ++ "." ++ f
  | _ => "?"

/-- Labels of all calls performed inside an expression, left to right. -/
def exprCallees : PyExpr → List String
  | .call1 c a => calleeLabel c :: exprCallees a
  | .callKw1 c a _ kv => calleeLabel c :: (exprCallees a ++ exprCallees kv)
  | .attrGet o _ => exprCallees o
  | .indexGet o _ => exprCallees o
  | .tuple2 a b => exprCallees a ++ exprCallees b
  | .tuple3 a b c => exprCallees a ++ exprCallees b ++ exprCallees c
  | .tuple4 a b c d => exprCallees a ++ exprCallees b ++ exprCallees c ++ exprCallees d
  | .binMod a b => exprCallees a ++ exprCallees b
  | _ => []

/-- Labels of all calls performed by a statement. -/
def stmtCallees : PyStmt → List String
  | .assign _ e => exprCallees e
  | .attrAssign _ _ e => exprCallees e
  | .exprStmt e => exprCallees e
  | .forIn _ it b => exprCallees it ++ stmtCallees b
  | .funcDef _ b => stmtCallees b
  | .classDef _ b => stmtCallees b
  | .tryExcept b h => stmtCallees b ++ stmtCallees h
  | _ => []

/-- All call labels of the notebook program, in program order. -/
def allCallees : List String := (notebookProgram.map stmtCallees).flatten

/-- The call targets the notebook is allowed to reach: objects of the external
`syft` / `torch` / `syfertext` libraries (including the loaded model object
`nlp` and the imported PySyft `String` class) and Python builtins. -/
def externalCalleeNames : List String :=
  ["warnings.filterwarnings", "sy.TorchHook", "syfertext.load",
   "nlp", "String", "type", "len", "print"]

/-- Data attributes read by an expression (attribute accesses in callee
position are method lookups, not data-field reads, so only the callee's base
object is traversed there). -/
def dataAttrReads : PyExpr → List String
  | .call1 (.attrGet o _) a => dataAttrReads o ++ dataAttrReads a
  | .call1 c a => dataAttrReads c ++ dataAttrReads a
  | .callKw1 (.attrGet o _) a _ kv => dataAttrReads o ++ dataAttrReads a ++ dataAttrReads kv
  | .callKw1 c a _ kv => dataAttrReads c ++ dataAttrReads a ++ dataAttrReads kv
  | .attrGet o f => f :: dataAttrReads o
  | .indexGet o _ => dataAttrReads o
  | .tuple2 a b => dataAttrReads a ++ dataAttrReads b
  | .tuple3 a b c => dataAttrReads a ++ dataAttrReads b ++ dataAttrReads c
  | .tuple4 a b c d => dataAttrReads a ++ dataAttrReads b ++ dataAttrReads c ++ dataAttrReads d
  | .binMod a b => dataAttrReads a ++ dataAttrReads b
  | _ => []

/-- Data attributes read by a statement. -/
def stmtAttrReads : PyStmt → List String
  | .assign _ e => dataAttrReads e
  | .attrAssign _ _ e => dataAttrReads e
  | .exprStmt e => dataAttrReads e
  | .forIn _ it b => dataAttrReads it ++ stmtAttrReads b
  | .funcDef _ b => stmtAttrReads b
  | .classDef _ b => stmtAttrReads b
  | .tryExcept b h => stmtAttrReads b ++ stmtAttrReads h
  | _ => []

/-- All data-attribute reads of the notebook program, in program order. -/
def allAttrReads : List String := (notebookProgram.map stmtAttrReads).flatten

/-- Whether a statement writes an attribute of some object. -/
def stmtWritesAttr : PyStmt → Bool
  | .attrAssign _ _ _ => true
  | .forIn _ _ b => stmtWritesAttr b
  | .funcDef _ b => stmtWritesAttr b
  | .classDef _ b => stmtWritesAttr b
  | .tryExcept b h => stmtWritesAttr b || stmtWritesAttr h
  | _ => false

/-- The documented public attributes of the external objects that the
notebook inspects. -/
def documentedAttrs : List String :=
  ["local_worker", "owner", "space_after", "start_pos", "stop_pos", "orth", "vector"]

/-- Call labels that would spawn concurrent activity in Python.  None occurs
in the notebook. -/
def spawnCallees : List String :=
  ["threading.Thread", "multiprocessing.Process", "asyncio.run", "os.fork"]

/-- Whether a statement performs a concurrency-spawning call. -/
def stmtSpawns (s : PyStmt) : Bool :=
  (stmtCallees s).any (fun c => spawnCallees.contains c)

/-- Control-flow successors of position `i` of a statement list: a
concurrency-spawning statement would continue both sequentially and in a
spawned activity; any other statement continues only at `i + 1`; past the end
there is no successor. -/
def stmtSuccessors (p : List PyStmt) (i : Nat) : List Nat :=
  match p[i]? with
  | none => []
  | some s => if stmtSpawns s then [i + 1, p.length + i + 1] else [i + 1]

/-- Tag of the demonstration step a statement performs, when it is one of the
steps named by the spec's account of the run. -/
def demoTag : PyStmt → Option String
  | .assign "hook" _ => some "hook_torch"
  | .assign "me" _ => some "get_local_worker"
  | .assign "nlp" _ => some "load_model"
  | .assign "doc" (.call1 (.name "nlp") (.name "my_str")) => some "tokenize_str"
  | .assign "doc" (.call1 (.name "nlp") (.name "my_string")) => some "tokenize_pysyft_string"
  | .forIn _ _ _ => some "iterate_tokens"
  | .exprStmt (.call1 (.name "print") (.indexGet _ _)) => some "index_doc"
  | .exprStmt (.attrGet (.indexGet _ _) _) => some "index_doc"
  | _ => none

/-- The recorded `type(...)` outputs of the notebook: the Python type of each
non-primitive value the notebook binds and inspects. -/
def recordedTypeOutputs : List (String × String) :=
  [("nlp", "syfertext.language.Language"),
   ("doc", "syfertext.doc.Doc"),
   ("my_string", "syft.generic.string.String")]

/-- The externally defined opaque types named by the spec. -/
def externalTypes : List String :=
  ["syfertext.language.Language", "syfertext.doc.Doc",
   "syfertext.token.Token", "syft.generic.string.String"]

/-- The recorded `.owner` outputs of the notebook: each printed owner is the
`VirtualWorker` with id `me`. -/
def recordedOwnerOutputs : List (String × String) :=
  [("nlp", "me"), ("doc", "me"), ("my_string", "me")]

/-! ## Layer 2: the external interface exercised by the notebook

The `syfertext` package itself is not part of the provided source, so the
objects below are modelled from the spec's description of the external
interface (section 6 of the spec) together with the input/output pairs
recorded in the notebook's cell outputs. -/

/-- A PySyft worker, identified by its id (the notebook only ever uses the
local `VirtualWorker` with id `me`). -/
structure Worker where
  wid : String
  deriving DecidableEq

/-- Modelled from the spec: a token object as exposed by the external
library — "token objects exposing a text span, a following-space flag,
start/stop character offsets, a hash/identifier, and a numeric embedding
vector".  The embedding vector is abstracted to its dimension (the notebook
prints a 300-entry float vector for `doc[2]`; the float values themselves are
not modelled). -/
structure TokenData where
  text : String
  space_after : Bool
  start_pos : Nat
  stop_pos : Nat
  orth : Nat
  vector_dim : Nat
  deriving DecidableEq

/-- Modelled from the spec: the document object — "the external library's
in-memory representation of a tokenized text, exposing per-token attributes".
Like every PySyft object it has an owner. -/
structure Doc where
  owner : Worker
  tokens : List TokenData
  deriving DecidableEq

/-- Modelled from the spec: the model/pipeline object returned by the `load`
entry point.  Like every PySyft object it has an owner. -/
structure Language where
  model_name : String
  owner : Worker
  deriving DecidableEq

/-- The Python values the notebook passes around: native strings, PySyft
`String` objects, and the opaque external `Language` and `Doc` objects. -/
inductive PyValue where
  | pyStr (s : String)
  | syString (s : String) (owner : Worker)
  | langV (l : Language)
  | docV (d : Doc)
  deriving DecidableEq

/-- The Python type name of a value, as `type(...)` prints it in the
notebook's recorded outputs. -/
def pyType : PyValue → String
  | .pyStr _ => "str"
  | .syString _ _ => "syft.generic.string.String"
  | .langV _ => "syfertext.language.Language"
  | .docV _ => "syfertext.doc.Doc"

/-- The owner of a PySyft value (native `str` values have none). -/
def ownerOfVal : PyValue → Option Worker
  | .pyStr _ => none
  | .syString _ w => some w
  | .langV l => some l.owner
  | .docV d => some d.owner

/-- The local worker `me = hook.local_worker` of the recorded run. -/
def me : Worker := ⟨"me"⟩

/-- Modelled from the spec: the external library's `load` entry point —
"a `load` entry point returning a model/pipeline object" — called in the
notebook as `syfertext.load('en_core_web_lg', owner = me)`. -/
def load (model_name : String) (owner : Worker) : Language :=
  { model_name := model_name, owner := owner }

/-- Modelled from the spec: the PySyft `String` constructor, a wrapper around
a native `str`; the notebook's recorded output shows it owned by the local
worker. -/
def mkString (s : String) (owner : Worker) : PyValue := .syString s owner

/-- The token table recorded in the notebook for `nlp(my_str)`: fourteen rows
of text, `space_after`, `start_pos` and `stop_pos` (cell output of the first
`for token in doc` loop).  The `orth` hashes of this run are not printed in
the notebook and are modelled as 0; `vector_dim` is 300, the length of the
vector printed for `doc[2]`. -/
def docStrTokens : List TokenData := [
  ⟨"Dr.", true, 0, 3, 0, 300⟩,
  ⟨"doom", false, 4, 8, 0, 300⟩,
  ⟨"!", true, 8, 9, 0, 300⟩,
  ⟨"is", true, 10, 12, 0, 300⟩,
  ⟨" ", false, 13, 14, 0, 300⟩,
  ⟨"(", false, 14, 15, 0, 300⟩,
  ⟨"\x7b", false, 15, 16, 0, 300⟩,
  ⟨"token", false, 16, 22, 0, 300⟩,
  ⟨"-", false, 21, 23, 0, 300⟩,
  ⟨"izing", true, 22, 28, 0, 300⟩,
  ⟨"a", true, 28, 29, 0, 300⟩,
  ⟨"python", false, 30, 36, 0, 300⟩,
  ⟨"!", true, 36, 37, 0, 300⟩,
  ⟨"string", false, 38, 44, 0, 300⟩]

/-- The token table recorded in the notebook for `nlp(my_string)`: seven rows
of text, `space_after` and `orth` (cell output of the second
`for token in doc` loop).  The character offsets of this run are not printed
in the notebook; they are filled in as the positions of the
whitespace-separated words in the input, and no claim depends on them. -/
def docStringTokens : List TokenData := [
  ⟨"I", true, 0, 1, 5943131912006430202, 300⟩,
  ⟨"am", true, 2, 4, 11728213064939857863, 300⟩,
  ⟨"token#izing", true, 5, 16, 5371500643362927579, 300⟩,
  ⟨"a", true, 17, 18, 5182201742351716208, 300⟩,
  ⟨"PySyft", true, 19, 25, 13286865392898898656, 300⟩,
  ⟨"String", true, 26, 32, 13847508276233069841, 300⟩,
  ⟨"object", false, 33, 39, 10176415242575268008, 300⟩]

/-- The tokenization recorded in the notebook, as a function of the input
text.  The tokenizer's rules live in the external library and are not part of
the provided source; only these two input/output pairs are recorded. -/
def recordedTokens (s : String) : List TokenData :=
  if s = myStrText then docStrTokens
  else if s = myStringText then docStringTokens
  else []

/-- Whether a value is a text input in the sense of the spec: a native `str`
or a PySyft `String`. -/
def isTextInput : PyValue → Bool
  | .pyStr _ => true
  | .syString _ _ => true
  | _ => false

/-- Modelled from the spec: calling the loaded `Language` object — "a
callable model object that converts a text value or a wrapped string value
into a document object".  On a non-text value the call is undefined (`none`);
on a text value it returns a `Doc` owned by the model's owner whose tokens
are the recorded tokenization of the text. -/
def langCall (lang : Language) (v : PyValue) : Option PyValue :=
  match v with
  | .pyStr s => some (.docV { owner := lang.owner, tokens := recordedTokens s })
  | .syString s _ => some (.docV { owner := lang.owner, tokens := recordedTokens s })
  | _ => none

/-- Modelled from the spec: iterating over a document yields its token
objects in order. -/
def iterTokens (d : Doc) : List TokenData := d.tokens

/-- Modelled from the spec: `len(doc)`, the number of tokens the document
keeps track of. -/
def lenDoc (d : Doc) : Nat := d.tokens.length

/-- Modelled from the spec: `doc[i]`, integer indexing into the document's
tokens. -/
def getItem (d : Doc) (i : Nat) : Option TokenData := d.tokens[i]?

/-- An attribute value of a token: a string, a flag, a number, or the
embedding vector (abstracted to its dimension). -/
inductive AttrValue where
  | strA (s : String)
  | boolA (b : Bool)
  | natA (n : Nat)
  | vecA (dim : Nat)
  deriving DecidableEq

/-- Attribute access on a token object, for the attributes the spec
documents; any other attribute name is absent. -/
def tokenGetAttr (t : TokenData) (a : String) : Option AttrValue :=
  if a = "text" then some (.strA t.text)
  else if a = "space_after" then some (.boolA t.space_after)
  else if a = "start_pos" then some (.natA t.start_pos)
  else if a = "stop_pos" then some (.natA t.stop_pos)
  else if a = "orth" then some (.natA t.orth)
  else if a = "vector" then some (.vecA t.vector_dim)
  else none

/-- The token attributes the claims name. -/
def tokenAttrNames : List String :=
  ["text", "space_after", "start_pos", "stop_pos", "orth", "vector"]

/-- The model object of the recorded run: `nlp = syfertext.load('en_core_web_lg', owner = me)`. -/
def nlp0 : Language := load "en_core_web_lg" me

/-- The document of the recorded run for the native `str` input. -/
def docFromStr : Doc := { owner := nlp0.owner, tokens := recordedTokens myStrText }

/-- The document of the recorded run for the PySyft `String` input. -/
def docFromString : Doc := { owner := nlp0.owner, tokens := recordedTokens myStringText }

/-- The PySyft `String` value of the recorded run. -/
def myStringVal : PyValue := mkString myStringText me

/-- The method name of a call's callee, when the callee is an attribute
access. -/
def calleeMethod : PyExpr → List String
  | .attrGet _ f => [f]
  | _ => []

/-- Names of all methods invoked (calls whose callee is an attribute access)
inside an expression. -/
def exprMethodCalls : PyExpr → List String
  | .call1 c a => calleeMethod c ++ exprMethodCalls a
  | .callKw1 c a _ kv => calleeMethod c ++ exprMethodCalls a ++ exprMethodCalls kv
  | .attrGet o _ => exprMethodCalls o
  | .indexGet o _ => exprMethodCalls o
  | .tuple2 a b => exprMethodCalls a ++ exprMethodCalls b
  | .tuple3 a b c => exprMethodCalls a ++ exprMethodCalls b ++ exprMethodCalls c
  | .tuple4 a b c d =>
    exprMethodCalls a ++ exprMethodCalls b ++ exprMethodCalls c ++ exprMethodCalls d
  | .binMod a b => exprMethodCalls a ++ exprMethodCalls b
  | _ => []

/-- Names of all methods invoked by a statement. -/
def stmtMethodCalls : PyStmt → List String
  | .assign _ e => exprMethodCalls e
  | .attrAssign _ _ e => exprMethodCalls e
  | .exprStmt e => exprMethodCalls e
  | .forIn _ it b => exprMethodCalls it ++ stmtMethodCalls b
  | .funcDef _ b => stmtMethodCalls b
  | .classDef _ b => stmtMethodCalls b
  | .tryExcept b h => stmtMethodCalls b ++ stmtMethodCalls h
  | _ => []

/-- All method names invoked by the notebook program. -/
def allMethodCalls : List String := (notebookProgram.map stmtMethodCalls).flatten

/-- The PySyft methods that transfer an object to, or create it on, another
worker. -/
def transferMethods : List String := ["send", "move", "get", "remote_get"]

/-! ## Theorems -/

/-- C1: The notebook contains no original algorithmic implementation: it
defines no function or class, and every call it performs targets an object of
the external syfertext/syft/torch libraries or a Python builtin, so the
program is a composition of external calls only. -/
theorem notebook_is_external_calls_only :
    notebookProgram.all (fun s => !stmtIsDefinition s) = true ∧
    allCallees.all (fun c => externalCalleeNames.contains c) = true :=
  ⟨rfl, rfl⟩

/-- C2: Calling the loaded model object on any input that is a Python `str`
or a PySyft `String` returns a `syfertext.doc.Doc`; in particular the
notebook's two calls `nlp(my_str)` and `nlp(my_string)` each produce a
document. -/
theorem langCall_returns_doc :
    (∀ v : PyValue, isTextInput v = true →
      (langCall nlp0 v).map pyType = some "syfertext.doc.Doc") ∧
    langCall nlp0 (.pyStr myStrText) = some (.docV docFromStr) ∧
    langCall nlp0 myStringVal = some (.docV docFromString) := by
  refine ⟨?_, rfl, rfl⟩
  intro v hv
  cases v <;> first | rfl | simp [isTextInput] at hv

/-- Witness for C2: the claim instantiated at a concrete `str` input. -/
theorem langCall_returns_doc_witness :
    isTextInput (PyValue.pyStr "hello") = true ∧
    (langCall nlp0 (PyValue.pyStr "hello")).map pyType = some "syfertext.doc.Doc" :=
  ⟨rfl, langCall_returns_doc.1 (PyValue.pyStr "hello") rfl⟩

/-- C3: Iterating over any document yields token objects, and every such
token exposes all of: its text span, the following-space flag, the start and
stop character offsets, the hash/identifier, and the embedding vector. -/
theorem tokens_expose_documented_attributes :
    ∀ d : Doc, ∀ t ∈ iterTokens d, ∀ a ∈ tokenAttrNames, tokenGetAttr t a ≠ none := by
  intro d t _ a ha
  fin_cases ha <;> simp [tokenGetAttr]

/-- Witness for C3: the claim instantiated at the recorded document's first
token and the `vector` attribute. -/
theorem tokens_expose_documented_attributes_witness :
    ((⟨"Dr.", true, 0, 3, 0, 300⟩ : TokenData) ∈ iterTokens docFromStr) ∧
    ("vector" ∈ tokenAttrNames) ∧
    tokenGetAttr ⟨"Dr.", true, 0, 3, 0, 300⟩ "vector" ≠ none :=
  ⟨by decide, by decide,
    tokens_expose_documented_attributes docFromStr ⟨"Dr.", true, 0, 3, 0, 300⟩
      (by decide) "vector" (by decide)⟩

/-- C4: The external `load` entry point, called with the model name
`en_core_web_lg` and an owner worker, returns a
`syfertext.language.Language` model object with that name and owner. -/
theorem load_returns_language_model :
    pyType (.langV (load "en_core_web_lg" me)) = "syfertext.language.Language" ∧
    (load "en_core_web_lg" me).owner = me ∧
    (load "en_core_web_lg" me).model_name = "en_core_web_lg" :=
  ⟨rfl, rfl, rfl⟩

/-- C5: The notebook contains no error handling: no statement of the
transcribed program is (or contains) a `try`/`except` block, so any failure
raised by an external-library call propagates unhandled. -/
theorem notebook_has_no_error_handling :
    notebookProgram.all (fun s => !stmtIsTry s) = true :=
  rfl

/-- C6: The notebook's execution is purely sequential and single-threaded:
every non-final position of the program has exactly the single successor
`i + 1`, the final position has none, no statement performs a
concurrency-spawning call, and the demonstration steps occur in the fixed
order hook / local worker / load / tokenize the str / iterate / index /
tokenize the String / iterate. -/
theorem notebook_execution_is_sequential :
    (∀ i, i < notebookProgram.length → stmtSuccessors notebookProgram i = [i + 1]) ∧
    stmtSuccessors notebookProgram notebookProgram.length = [] ∧
    notebookProgram.all (fun s => !stmtSpawns s) = true ∧
    notebookProgram.filterMap demoTag =
      ["hook_torch", "get_local_worker", "load_model", "tokenize_str",
       "iterate_tokens", "index_doc", "index_doc", "tokenize_pysyft_string",
       "iterate_tokens"] := by
  refine ⟨?_, rfl, rfl, rfl⟩
  intro i hi
  have hlen : notebookProgram.length = 20 := rfl
  rw [hlen] at hi
  interval_cases i <;> rfl

/-- Witness for C6: position 0 of the program has exactly the successor 1. -/
theorem notebook_execution_is_sequential_witness :
    stmtSuccessors notebookProgram 0 = [0 + 1] :=
  notebook_execution_is_sequential.1 0 (by decide)

/-- C7: Every non-primitive value the notebook binds and inspects is, per the
recorded `type(...)` outputs, an instance of an externally defined type; the
only attributes the notebook reads are the documented public ones; and it
never writes an attribute nor defines a class or function of its own. -/
theorem notebook_only_opaque_external_objects :
    recordedTypeOutputs.all (fun p => externalTypes.contains p.2) = true ∧
    allAttrReads.all (fun a => documentedAttrs.contains a) = true ∧
    notebookProgram.all (fun s => !stmtWritesAttr s) = true ∧
    notebookProgram.all (fun s => !stmtIsDefinition s) = true :=
  ⟨rfl, rfl, rfl, rfl⟩

/-- C8: Ownership invariant of the demonstration: the loaded `Language`
object, the documents returned by calling it, and the PySyft `String` are all
owned by the single local worker `me`; the recorded `.owner` outputs all
print `me`; and no call of the notebook sends an object to another worker. -/
theorem demonstration_ownership_invariant :
    nlp0.owner = me ∧
    ((langCall nlp0 (.pyStr myStrText)).bind ownerOfVal) = some me ∧
    ((langCall nlp0 myStringVal).bind ownerOfVal) = some me ∧
    ownerOfVal myStringVal = some me ∧
    recordedOwnerOutputs.all (fun p => p.2 == "me") = true ∧
    allMethodCalls.all (fun m => !(transferMethods.contains m)) = true :=
  ⟨rfl, rfl, rfl, rfl, rfl, by decide⟩

/-- C9: For every document, `len` agrees with the number of iterated tokens
and integer indexing agrees with iteration order; in the recorded run the
document for the notebook's `str` input has length 14, iteration yields 14
tokens, and `doc[2]` is the token `!`, the third iterated token. -/
theorem doc_len_iter_index_agree :
    (∀ d : Doc, lenDoc d = (iterTokens d).length) ∧
    (∀ (d : Doc) (i : Nat), i < lenDoc d → getItem d i = (iterTokens d)[i]?) ∧
    lenDoc docFromStr = 14 ∧
    (iterTokens docFromStr).length = 14 ∧
    (getItem docFromStr 2).map TokenData.text = some "!" ∧
    (iterTokens docFromStr)[2]? = getItem docFromStr 2 := by
  refine ⟨fun d => rfl, fun d i _ => rfl, by decide, by decide, by decide, rfl⟩

/-- Witness for C9: the indexing/iteration agreement instantiated at the
recorded document and index 2. -/
theorem doc_len_iter_index_agree_witness :
    getItem docFromStr 2 = (iterTokens docFromStr)[2]? :=
  doc_len_iter_index_agree.2.1 docFromStr 2 (by decide)

/-- C10: Token character offsets need not partition the input: in the
recorded run the token `-` spans offsets 21 to 23 while the next iterated
token `izing` starts at 22, so some consecutive pair of tokens has
overlapping spans and `start_pos ≥ preceding stop_pos` is not an
invariant. -/
theorem token_offsets_may_overlap :
    (getItem docFromStr 8).map TokenData.text = some "-" ∧
    (getItem docFromStr 8).map TokenData.start_pos = some 21 ∧
    (getItem docFromStr 8).map TokenData.stop_pos = some 23 ∧
    (getItem docFromStr 9).map TokenData.text = some "izing" ∧
    (getItem docFromStr 9).map TokenData.start_pos = some 22 ∧
    ((iterTokens docFromStr).zip (iterTokens docFromStr).tail).any
      (fun p => decide (p.2.start_pos < p.1.stop_pos)) = true := by
  refine ⟨by decide, by decide, by decide, by decide, by decide, by decide⟩

end SyferTextTutorial
